import Mathlib

/-
Shallow embedding of the Ai-Route-Optimizer frontend.

The repository is a React single-page application.  The embedding below
translates the pure decision logic of its event handlers into Lean
functions:

* `optimizeRouteAction` models the validation and request-building part of
  `optimizeRoute` in `src/frontend/src/pages/AIRouteOptimizer.jsx`
  (lines 413-470): the truthiness check on the four coordinate fields, the
  `parseFloat`/`isNaN` check, the latitude and longitude range checks, and
  the construction of the request payload (including the waypoint
  filtering).
* `handleOptimizeOutcome` models the `try`/`catch` around the
  `/optimize-route` fetch (lines 474-599), with `mockResponse` the
  hardcoded fallback payload built in the `catch` branch.
* `drawRoutesOnMap`, `routeLineStyle`, `trafficSegMarkers` model the map
  route-rendering function (lines 206-350).
* `clearMapData` / `addMarkersToMap` model the marker synchronisation
  (lines 112-203), and `handleMapClick` the click handler (lines 388-411).
* `FetchAuth` models the fetch-based auth context in `src/unnamed/part_000`;
  `AxiosAuth` models `src/frontend/src/context/AuthContext.jsx`;
  `interceptRequest` models the axios request interceptor in
  `src/frontend/src/api/api.js`.

Form fields hold strings.  `FieldVal` abstracts the content of one field:
`empty` is the empty string (falsy in JavaScript), `num q` a string that
`parseFloat` parses to the number `q`, and `junk` a non-empty string on
which `parseFloat` yields `NaN`.  JavaScript numbers are modelled as `ℚ`.
-/

namespace AiRouteOptimizer

/-- Content of one coordinate form field (the fields are strings in the
component state). -/
inductive FieldVal
  | empty
  | num (q : ℚ)
  | junk
deriving DecidableEq

/-- JavaScript truthiness of the field's string: only the empty string is
falsy. -/
def FieldVal.truthy : FieldVal → Bool
  | .empty => false
  | _ => true

/-- `parseFloat` on the field's string; `none` models `NaN`. -/
def FieldVal.parseFloat : FieldVal → Option ℚ
  | .empty => none
  | .num q => some q
  | .junk => none

theorem FieldVal.parseFloat_eq_some {v : FieldVal} {q : ℚ}
    (h : v.parseFloat = some q) : v = .num q := by
  cases v with
  | empty => simp [FieldVal.parseFloat] at h
  | num a => simp [FieldVal.parseFloat] at h; simp [h]
  | junk => simp [FieldVal.parseFloat] at h

/-- One coordinate pair of form fields (`startCoords`, `endCoords`, or a
waypoint row). -/
structure CoordFields where
  latitude : FieldVal
  longitude : FieldVal
deriving DecidableEq

/-- A parsed numeric coordinate, as placed in the request payload. -/
structure Coordinate where
  latitude : ℚ
  longitude : ℚ
deriving DecidableEq

/-- A waypoint after `parseFloat`; `none` components model `NaN` (a
non-empty but non-numeric field survives the filter). -/
structure ParsedWaypoint where
  latitude : Option ℚ
  longitude : Option ℚ
deriving DecidableEq

/-- The `/optimize-route` request body built by `optimizeRoute`. -/
structure RequestData where
  start : Coordinate
  end_ : Coordinate
  departure_time : String
  waypoints : List ParsedWaypoint
  vehicle_type : String
  avoid_traffic : Bool
deriving DecidableEq

/-- Result of running the client-side part of `optimizeRoute` up to the
network call: either an `alert(...)` followed by `return` (no request is
made), or the request payload that is sent to `/optimize-route`. -/
inductive OptimizeAction
  | rejected (alertMsg : String)
  | request (payload : RequestData)
deriving DecidableEq

/-- The waypoint list placed in the request payload:
`waypoints.filter((wp) => wp.latitude && wp.longitude).map(...parseFloat...)`. -/
def buildWaypoints (wps : List CoordFields) : List ParsedWaypoint :=
  (wps.filter (fun wp => wp.latitude.truthy && wp.longitude.truthy)).map
    (fun wp => ⟨wp.latitude.parseFloat, wp.longitude.parseFloat⟩)

/-- The validation / request-building logic of `optimizeRoute`
(AIRouteOptimizer.jsx lines 413-470), in source order: truthiness check,
`isNaN` check after `parseFloat`, latitude range check, longitude range
check, then the payload. -/
def optimizeRouteAction (startCoords endCoords : CoordFields)
    (departureTime : String) (waypoints : List CoordFields) : OptimizeAction :=
  if !startCoords.latitude.truthy || !startCoords.longitude.truthy ||
     !endCoords.latitude.truthy || !endCoords.longitude.truthy then
    .rejected ("Please enter valid start and end coordinates or click on the map")
  else
    match startCoords.latitude.parseFloat, startCoords.longitude.parseFloat,
          endCoords.latitude.parseFloat, endCoords.longitude.parseFloat with
    | some startLat, some startLng, some endLat, some endLng =>
      if startLat < -90 ∨ startLat > 90 ∨ endLat < -90 ∨ endLat > 90 then
        .rejected ("Latitude must be between -90 and 90")
      else if startLng < -180 ∨ startLng > 180 ∨ endLng < -180 ∨ endLng > 180 then
        .rejected ("Longitude must be between -180 and 180")
      else
        .request
          { start := ⟨startLat, startLng⟩
            end_ := ⟨endLat, endLng⟩
            departure_time := departureTime
            waypoints := buildWaypoints waypoints
            vehicle_type := "driving-car"
            avoid_traffic := true }
    | _, _, _, _ => .rejected ("Please enter valid numeric coordinates")

/-- A field value that the spec calls invalid for a coordinate bound:
empty, non-numeric, or numerically outside `[-bound, bound]`. -/
def FieldVal.invalidFor (v : FieldVal) (bound : ℚ) : Prop :=
  match v with
  | .empty => True
  | .junk => True
  | .num q => q < -bound ∨ q > bound

instance (v : FieldVal) (bound : ℚ) : Decidable (v.invalidFor bound) :=
  match v with
  | .empty => isTrue trivial
  | .junk => isTrue trivial
  | .num q => inferInstanceAs (Decidable (q < -bound ∨ q > bound))

/-- Structural characterisation of `optimizeRouteAction`: either it rejects
(with the same alert for every waypoint list), or all four start/end
fields are numeric and in range and it sends the payload for every
waypoint list. -/
theorem optimizeRouteAction_spec (s e : CoordFields) (dt : String)
    (wps : List CoordFields) :
    (∃ msg, optimizeRouteAction s e dt wps = .rejected msg ∧
       ∀ wps', optimizeRouteAction s e dt wps' = .rejected msg) ∨
    (∃ a b c d : ℚ,
       s.latitude = .num a ∧ s.longitude = .num b ∧
       e.latitude = .num c ∧ e.longitude = .num d ∧
       -90 ≤ a ∧ a ≤ 90 ∧ -180 ≤ b ∧ b ≤ 180 ∧
       -90 ≤ c ∧ c ≤ 90 ∧ -180 ≤ d ∧ d ≤ 180 ∧
       ∀ wps', optimizeRouteAction s e dt wps' = .request
         { start := ⟨a, b⟩
           end_ := ⟨c, d⟩
           departure_time := dt
           waypoints := buildWaypoints wps'
           vehicle_type := "driving-car"
           avoid_traffic := true }) := by
  by_cases h0 : (!s.latitude.truthy || !s.longitude.truthy ||
      !e.latitude.truthy || !e.longitude.truthy) = true
  · left
    exact ⟨"Please enter valid start and end coordinates or click on the map",
      by simp [optimizeRouteAction, h0], fun wps' => by
        simp [optimizeRouteAction, h0]⟩
  · cases hpa : s.latitude.parseFloat with
    | none =>
      left
      exact ⟨"Please enter valid numeric coordinates",
        by simp [optimizeRouteAction, h0, hpa], fun wps' => by
          simp [optimizeRouteAction, h0, hpa]⟩
    | some a =>
      cases hpb : s.longitude.parseFloat with
      | none =>
        left
        exact ⟨"Please enter valid numeric coordinates",
          by simp [optimizeRouteAction, h0, hpa, hpb], fun wps' => by
            simp [optimizeRouteAction, h0, hpa, hpb]⟩
      | some b =>
        cases hpc : e.latitude.parseFloat with
        | none =>
          left
          exact ⟨"Please enter valid numeric coordinates",
            by simp [optimizeRouteAction, h0, hpa, hpb, hpc],
            fun wps' => by simp [optimizeRouteAction, h0, hpa, hpb, hpc]⟩
        | some c =>
          cases hpd : e.longitude.parseFloat with
          | none =>
            left
            exact ⟨"Please enter valid numeric coordinates",
              by simp [optimizeRouteAction, h0, hpa, hpb, hpc, hpd],
              fun wps' => by simp [optimizeRouteAction, h0, hpa, hpb, hpc, hpd]⟩
          | some d =>
            by_cases hr1 : a < -90 ∨ a > 90 ∨ c < -90 ∨ c > 90
            · left
              exact ⟨"Latitude must be between -90 and 90",
                by simp [optimizeRouteAction, h0, hpa, hpb, hpc, hpd, hr1],
                fun wps' => by
                  simp [optimizeRouteAction, h0, hpa, hpb, hpc, hpd, hr1]⟩
            · by_cases hr2 : b < -180 ∨ b > 180 ∨ d < -180 ∨ d > 180
              · left
                exact ⟨"Longitude must be between -180 and 180", by
                    simp [optimizeRouteAction, h0, hpa, hpb, hpc, hpd, hr1, hr2],
                  fun wps' => by
                    simp [optimizeRouteAction, h0, hpa, hpb, hpc, hpd, hr1, hr2]⟩
              · right
                have hb1 := hr1
                have hb2 := hr2
                push_neg at hb1 hb2
                refine ⟨a, b, c, d, FieldVal.parseFloat_eq_some hpa,
                  FieldVal.parseFloat_eq_some hpb, FieldVal.parseFloat_eq_some hpc,
                  FieldVal.parseFloat_eq_some hpd,
                  hb1.1, hb1.2.1, hb2.1, hb2.2.1, hb1.2.2.1, hb1.2.2.2,
                  hb2.2.2.1, hb2.2.2.2, fun wps' => ?_⟩
                simp [optimizeRouteAction, h0, hpa, hpb, hpc, hpd, hr1, hr2]

/-- C2: whenever a start or end latitude field is outside `[-90, 90]`, a
start or end longitude field is outside `[-180, 180]`, or any of the four
fields is empty or non-numeric, `optimizeRoute` rejects client-side with an
alert (`OptimizeAction.rejected`) and builds no `/optimize-route` request. -/
theorem optimize_rejects_out_of_range (s e : CoordFields) (dt : String)
    (wps : List CoordFields)
    (h : s.latitude.invalidFor 90 ∨ s.longitude.invalidFor 180 ∨
         e.latitude.invalidFor 90 ∨ e.longitude.invalidFor 180) :
    ∃ msg, optimizeRouteAction s e dt wps = .rejected msg := by
  rcases optimizeRouteAction_spec s e dt wps with ⟨msg, hrej, _⟩ |
    ⟨a, b, c, d, ha, hb, hc, hd, ha1, ha2, hb1, hb2, hc1, hc2, hd1, hd2, _⟩
  · exact ⟨msg, hrej⟩
  · exfalso
    rcases h with h | h | h | h
    · rw [ha] at h
      simp only [FieldVal.invalidFor] at h
      rcases h with h | h <;> linarith
    · rw [hb] at h
      simp only [FieldVal.invalidFor] at h
      rcases h with h | h <;> linarith
    · rw [hc] at h
      simp only [FieldVal.invalidFor] at h
      rcases h with h | h <;> linarith
    · rw [hd] at h
      simp only [FieldVal.invalidFor] at h
      rcases h with h | h <;> linarith

/-- Witness for C2 at a concrete input: start latitude `91` is out of
range, and the action is a client-side rejection. -/
theorem optimize_rejects_out_of_range_witness :
    (FieldVal.invalidFor (.num 91) 90 ∨ FieldVal.invalidFor (.num 72) 180 ∨
     FieldVal.invalidFor (.num 18) 90 ∨ FieldVal.invalidFor (.num 73) 180) ∧
    ∃ msg, optimizeRouteAction ⟨.num 91, .num 72⟩ ⟨.num 18, .num 73⟩ "08:00"
      [] = .rejected msg :=
  ⟨by decide, optimize_rejects_out_of_range ⟨.num 91, .num 72⟩
    ⟨.num 18, .num 73⟩ "08:00" [] (by decide)⟩

theorem filter_map_eq_filterMap {α β : Type} (p : α → Bool) (f : α → β) :
    ∀ l : List α, (l.filter p).map f =
      l.filterMap (fun a => if p a then some (f a) else none)
  | [] => rfl
  | a :: l => by
    by_cases hp : p a = true
    · rw [List.filter_cons_of_pos hp, List.map_cons, filter_map_eq_filterMap p f l]
      simp [List.filterMap_cons, hp]
    · rw [List.filter_cons_of_neg hp, filter_map_eq_filterMap p f l]
      simp [List.filterMap_cons, hp]

theorem buildWaypoints_eq_filterMap (l : List CoordFields) :
    buildWaypoints l = l.filterMap (fun wp =>
      if wp.latitude.truthy && wp.longitude.truthy then
        some ⟨wp.latitude.parseFloat, wp.longitude.parseFloat⟩
      else none) :=
  filter_map_eq_filterMap _ _ l

/-- C10: the request payload carries exactly the waypoints whose latitude
and longitude fields are both non-empty, parsed with `parseFloat`, in their
original order (rows with a missing field are dropped); and the waypoint
values are never range-validated: if the action sends a request for one
waypoint list, it sends a request for every waypoint list. -/
theorem request_waypoints_filtered_unvalidated (s e : CoordFields)
    (dt : String) (wps : List CoordFields) (p : RequestData)
    (h : optimizeRouteAction s e dt wps = .request p) :
    p.waypoints = wps.filterMap (fun wp =>
      if wp.latitude.truthy && wp.longitude.truthy then
        some ⟨wp.latitude.parseFloat, wp.longitude.parseFloat⟩
      else none) ∧
    ∀ wps' : List CoordFields, ∃ p' : RequestData,
      optimizeRouteAction s e dt wps' = .request p' := by
  rcases optimizeRouteAction_spec s e dt wps with ⟨msg, hrej, _⟩ |
    ⟨a, b, c, d, _, _, _, _, _, _, _, _, _, _, _, _, hreq⟩
  · rw [h] at hrej
    exact absurd hrej (by simp)
  · constructor
    · have hp := hreq wps
      rw [h] at hp
      cases hp
      exact buildWaypoints_eq_filterMap wps
    · exact fun wps' => ⟨_, hreq wps'⟩

/-- Witness for C10: an out-of-range waypoint `(200, 300)` passes the
filter and appears, parsed, in the sent payload. -/
theorem request_waypoints_witness :
    ∃ p : RequestData,
      optimizeRouteAction ⟨.num 19, .num 72⟩ ⟨.num 18, .num 73⟩ "08:00"
        [⟨.num 200, .num 300⟩, ⟨.empty, .num 1⟩] = .request p ∧
      p.waypoints = [⟨some 200, some 300⟩] := by
  have h : optimizeRouteAction ⟨.num 19, .num 72⟩ ⟨.num 18, .num 73⟩ "08:00"
      [⟨.num 200, .num 300⟩, ⟨.empty, .num 1⟩] = .request
        { start := ⟨19, 72⟩
          end_ := ⟨18, 73⟩
          departure_time := "08:00"
          waypoints := buildWaypoints [⟨.num 200, .num 300⟩, ⟨.empty, .num 1⟩]
          vehicle_type := "driving-car"
          avoid_traffic := true } := by decide
  refine ⟨_, h, ?_⟩
  have := (request_waypoints_filtered_unvalidated _ _ _ _ _ h).1
  rw [this]
  decide

/-! ### The `/optimize-route` response payload and the mock fallback -/

/-- `route.summary` fields read by the page. -/
structure RouteSummary where
  distance : ℚ
  duration : ℚ
deriving DecidableEq

/-- `route.ai_analysis` fields read by the page; the whole object may be
absent (`route.ai_analysis?.` in the source). -/
structure AiAnalysis where
  ai_score : ℚ
  avg_traffic_level : ℚ
  high_traffic_segments : ℕ
  recommendation : String
  estimated_delay : ℚ
deriving DecidableEq

/-- One entry of `route.traffic_data`; `coordinates` is a list of
`[lat, lng]` pairs. -/
structure TrafficSegment where
  traffic_level : ℚ
  congestion_level : String
  speed_kmh : ℚ
  coordinates : List (ℚ × ℚ)
deriving DecidableEq

/-- `route.geometry`: GeoJSON positions, each position a `[lng, lat, ...]`
array of numbers (possibly malformed, hence a plain list). -/
structure RouteGeometry where
  coordinates : List (List ℚ)
deriving DecidableEq

/-- One entry of the response's `routes` array. -/
structure Route where
  summary : Option RouteSummary
  geometry : Option RouteGeometry
  ai_analysis : Option AiAnalysis
  traffic_data : Option (List TrafficSegment)
deriving DecidableEq

/-- `traffic_analysis` of the response. -/
structure TrafficAnalysis where
  total_segments_analyzed : ℕ
  high_traffic_segments : ℕ
  average_traffic_level : ℚ
  traffic_hotspots : List (ℚ × ℚ)
deriving DecidableEq

/-- `ai_recommendations` of the response. -/
structure AiRecommendations where
  recommended_route_index : ℕ
  confidence_score : ℚ
  alternative_routes_available : ℕ
  traffic_avoidance_success : Bool
  suggested_departure_time : String
  dynamic_rerouting_enabled : Bool
deriving DecidableEq

/-- The `/optimize-route` response payload as the page reads it. -/
structure RouteResponse where
  routes : List Route
  traffic_analysis : Option TrafficAnalysis
  ai_recommendations : Option AiRecommendations
deriving DecidableEq

/-- The two hardcoded mock routes built in the `catch` branch of
`optimizeRoute` (AIRouteOptimizer.jsx lines 522-578), parameterised by the
already-parsed start/end coordinates. -/
def mockRoutes (startLat startLng endLat endLng : ℚ) : List Route :=
  [{ summary := some ⟨150000, 7200⟩
     geometry := some ⟨[[startLng, startLat], [endLng, endLat]]⟩
     ai_analysis := some
       ⟨0.85, 0.3, 2, "Excellent route - optimal traffic conditions", 300⟩
     traffic_data := some
       [⟨0.2, "light", 55, [(startLat, startLng)]⟩,
        ⟨0.4, "moderate", 45, [(endLat, endLng)]⟩] },
   { summary := some ⟨165000, 8100⟩
     geometry := some
       ⟨[[startLng, startLat], [startLng + 0.1, startLat + 0.05],
         [endLng, endLat]]⟩
     ai_analysis := some
       ⟨0.65, 0.5, 4, "Alternative route - moderate traffic", 600⟩
     traffic_data := some
       [⟨0.6, "moderate", 35, [(startLat, startLng)]⟩] }]

/-- The full mock payload installed by `setRouteResults` in the `catch`
branch (AIRouteOptimizer.jsx lines 580-596). -/
def mockResponse (startLat startLng endLat endLng : ℚ) : RouteResponse :=
  { routes := mockRoutes startLat startLng endLat endLng
    traffic_analysis := some ⟨15, 2, 0.35, []⟩
    ai_recommendations := some ⟨0, 0.85, 1, true, "14:30", true⟩ }

/-- Outcome of the `fetch` to `/optimize-route`: success with a parsed
payload, a non-ok HTTP response, or a network error (rejected fetch). -/
inductive FetchOutcome
  | ok (data : RouteResponse)
  | httpError (status : ℕ) (body : String)
  | networkError
deriving DecidableEq

/-- State updated by the `try`/`catch` around the `/optimize-route` call:
whether `alert(...)` fired, and the value passed to `setRouteResults`. -/
structure OptimizeOutcome where
  alerted : Bool
  routeResults : Option RouteResponse
deriving DecidableEq

/-- The `try`/`catch` of `optimizeRoute` (AIRouteOptimizer.jsx lines
474-599): a successful response is stored as-is; a non-ok response throws
and a network error rejects, and in both cases the `catch` branch alerts
and stores the mock payload. -/
def handleOptimizeOutcome (startLat startLng endLat endLng : ℚ)
    (outcome : FetchOutcome) : OptimizeOutcome :=
  match outcome with
  | .ok data => ⟨false, some data⟩
  | .httpError _ _ =>
      ⟨true, some (mockResponse startLat startLng endLat endLng)⟩
  | .networkError =>
      ⟨true, some (mockResponse startLat startLng endLat endLng)⟩

/-- C3: every failure of the `/optimize-route` call (non-ok HTTP response
or network error) triggers an alert and sets the result state to the
hardcoded mock payload, whose `routes` array has exactly two entries, so
the results panel stays populated. -/
theorem failed_optimize_alerts_and_shows_two_route_mock :
    ∀ startLat startLng endLat endLng : ℚ,
    (∀ status body, handleOptimizeOutcome startLat startLng endLat endLng
        (.httpError status body) =
      ⟨true, some (mockResponse startLat startLng endLat endLng)⟩) ∧
    handleOptimizeOutcome startLat startLng endLat endLng .networkError =
      ⟨true, some (mockResponse startLat startLng endLat endLng)⟩ ∧
    (mockResponse startLat startLng endLat endLng).routes.length = 2 := by
  intro startLat startLng endLat endLng
  exact ⟨fun _ _ => rfl, rfl, rfl⟩

/-! ### Map rendering: `drawRoutesOnMap` -/

/-- The visual options of a drawn route polyline (`L.polyline` options,
AIRouteOptimizer.jsx lines 272-277). -/
structure RouteStyle where
  color : String
  weight : ℕ
  opacity : ℚ
  dashArray : Option String
deriving DecidableEq

/-- An overlay pushed into `routeLayersRef` by `drawRoutesOnMap`: a route
polyline, or a traffic circle marker added along a route. -/
inductive MapOverlay
  | routeLine (style : RouteStyle) (points : List (Option ℚ × Option ℚ))
  | trafficMarker (center : ℚ × ℚ) (fillColor : String)
deriving DecidableEq

def MapOverlay.isRouteLine : MapOverlay → Bool
  | .routeLine _ _ => true
  | .trafficMarker _ _ => false

/-- `routeResults?.ai_recommendations?.recommended_route_index === index`
(line 216-217); a missing object compares unequal to every index. -/
def isRecommendedRoute (resp : RouteResponse) (index : ℕ) : Bool :=
  match resp.ai_recommendations with
  | some ar => ar.recommended_route_index == index
  | none => false

/-- `route.ai_analysis?.avg_traffic_level || 0` (line 218); when the field
is `0` the `||` default is also `0`, so an `Option` default is faithful. -/
def routeTrafficLevel (r : Route) : ℚ :=
  match r.ai_analysis with
  | some a => a.avg_traffic_level
  | none => 0

/-- Route line colour choice (lines 221-230). -/
def routeColor (isRecommended : Bool) (trafficLevel : ℚ) : String :=
  if isRecommended then "#10b981"
  else if trafficLevel > 0.7 then "#ef4444"
  else if trafficLevel > 0.4 then "#f59e0b"
  else "#3b82f6"

/-- The `L.polyline` options of one route line (lines 272-277). -/
def routeLineStyle (isRecommended : Bool) (trafficLevel : ℚ) : RouteStyle :=
  { color := routeColor isRecommended trafficLevel
    weight := if isRecommended then 6 else 4
    opacity := if isRecommended then 1 else 0.7
    dashArray := if isRecommended then none else some ("10, 5") }

/-- GeoJSON `[lng, lat]` positions to Leaflet `[lat, lng]` pairs, dropping
malformed positions (lines 241-249: map, then filter out `null`). -/
def geoJsonToLatLng (coords : List (List ℚ)) : List (ℚ × ℚ) :=
  coords.filterMap (fun c =>
    match c with
    | c0 :: c1 :: _ => some (c1, c0)
    | _ => none)

/-- The polyline coordinates of one route (lines 233-267): converted
geometry when present and non-empty, otherwise the fallback straight line
between the parsed start and end fields (`none` models `NaN`). -/
def routeLinePoints (startCoords endCoords : CoordFields) (r : Route) :
    List (Option ℚ × Option ℚ) :=
  let fallback : List (Option ℚ × Option ℚ) :=
    [(startCoords.latitude.parseFloat, startCoords.longitude.parseFloat),
     (endCoords.latitude.parseFloat, endCoords.longitude.parseFloat)]
  match r.geometry with
  | some g =>
    if g.coordinates.length > 0 then
      let pts := geoJsonToLatLng g.coordinates
      if pts.length = 0 then fallback
      else pts.map (fun p => (some p.1, some p.2))
    else fallback
  | none => fallback

/-- Fill colour of a traffic circle marker (lines 314-317). -/
def trafficSegColor (trafficLevel : ℚ) : String :=
  if trafficLevel > 0.7 then "#ef4444"
  else if trafficLevel > 0.4 then "#f59e0b"
  else "#10b981"

/-- The traffic circle markers pushed into `routeLayersRef` for one route
(lines 308-339): one marker per `traffic_data` entry whose `coordinates`
list is non-empty, centred on its first coordinate. -/
def trafficSegMarkers (r : Route) : List MapOverlay :=
  match r.traffic_data with
  | some segs =>
    if segs.length > 0 then
      segs.filterMap (fun seg =>
        match seg.coordinates with
        | c :: _ => some (.trafficMarker c (trafficSegColor seg.traffic_level))
        | [] => none)
    else []
  | none => []

/-- The `routes.forEach` body of `drawRoutesOnMap`, carrying the running
route index: each route pushes its polyline and then its traffic markers. -/
def drawRoutesAux (resp : RouteResponse) (startCoords endCoords : CoordFields) :
    ℕ → List Route → List MapOverlay
  | _, [] => []
  | i, r :: rs =>
    .routeLine (routeLineStyle (isRecommendedRoute resp i) (routeTrafficLevel r))
        (routeLinePoints startCoords endCoords r) ::
      (trafficSegMarkers r ++ drawRoutesAux resp startCoords endCoords (i + 1) rs)

/-- `drawRoutesOnMap` (lines 206-350): the contents of `routeLayersRef`
after the function runs (the ref is cleared at entry, lines 210-213). -/
def drawRoutesOnMap (startCoords endCoords : CoordFields)
    (resp : RouteResponse) : List MapOverlay :=
  drawRoutesAux resp startCoords endCoords 0 resp.routes

theorem filter_isRouteLine_trafficSegMarkers (r : Route) :
    (trafficSegMarkers r).filter MapOverlay.isRouteLine = [] := by
  apply List.filter_eq_nil_iff.mpr
  intro o ho
  unfold trafficSegMarkers at ho
  split at ho
  · split at ho
    · rcases List.mem_filterMap.mp ho with ⟨seg, _, hmk⟩
      split at hmk
      · cases hmk
        simp [MapOverlay.isRouteLine]
      · cases hmk
    · cases ho
  · cases ho

theorem drawRoutesAux_filter_length (resp : RouteResponse)
    (startCoords endCoords : CoordFields) :
    ∀ (rs : List Route) (i : ℕ),
    ((drawRoutesAux resp startCoords endCoords i rs).filter
      MapOverlay.isRouteLine).length = rs.length := by
  intro rs
  induction rs with
  | nil => intro i; rfl
  | cons r rs ih =>
    intro i
    simp only [drawRoutesAux]
    rw [List.filter_cons_of_pos (by simp [MapOverlay.isRouteLine]),
      List.filter_append, filter_isRouteLine_trafficSegMarkers,
      List.nil_append, List.length_cons, ih (i + 1), List.length_cons]

theorem drawRoutesAux_length (resp : RouteResponse)
    (startCoords endCoords : CoordFields) :
    ∀ (rs : List Route) (i : ℕ),
    (drawRoutesAux resp startCoords endCoords i rs).length =
      rs.length + (rs.map (fun r => (trafficSegMarkers r).length)).sum := by
  intro rs
  induction rs with
  | nil => intro i; rfl
  | cons r rs ih =>
    intro i
    simp only [drawRoutesAux, List.length_cons, List.length_append,
      List.map_cons, List.sum_cons, ih (i + 1)]
    ring

theorem drawRoutesAux_line_at (resp : RouteResponse)
    (startCoords endCoords : CoordFields) :
    ∀ (rs : List Route) (i j : ℕ) (r : Route), rs[j]? = some r →
    ((drawRoutesAux resp startCoords endCoords i rs).filter
        MapOverlay.isRouteLine)[j]? =
      some (.routeLine (routeLineStyle (isRecommendedRoute resp (i + j))
        (routeTrafficLevel r)) (routeLinePoints startCoords endCoords r)) := by
  intro rs
  induction rs with
  | nil => intro i j r h; simp at h
  | cons r0 rs ih =>
    intro i j r h
    simp only [drawRoutesAux]
    rw [List.filter_cons_of_pos (by simp [MapOverlay.isRouteLine]),
      List.filter_append, filter_isRouteLine_trafficSegMarkers,
      List.nil_append]
    cases j with
    | zero =>
      rw [List.getElem?_cons_zero] at h
      cases h
      rw [List.getElem?_cons_zero, Nat.add_zero]
    | succ j =>
      rw [List.getElem?_cons_succ] at h
      rw [List.getElem?_cons_succ]
      have hn : i + 1 + j = i + (j + 1) := by omega
      rw [← hn]
      exact ih (i + 1) j r h

/-- C5 (amended): for every drawn response, the number of route polylines
equals the number of entries in `routes`; the route-layer list additionally
tracks one traffic circle marker per `traffic_data` segment with a
non-empty coordinate list, so its total length is the route count plus the
number of such segments. -/
theorem route_lines_match_routes_with_extra_traffic_markers :
    ∀ (startCoords endCoords : CoordFields) (resp : RouteResponse),
    ((drawRoutesOnMap startCoords endCoords resp).filter
        MapOverlay.isRouteLine).length = resp.routes.length ∧
    (drawRoutesOnMap startCoords endCoords resp).length =
      resp.routes.length +
        (resp.routes.map (fun r => (trafficSegMarkers r).length)).sum := by
  intro startCoords endCoords resp
  exact ⟨drawRoutesAux_filter_length resp startCoords endCoords resp.routes 0,
    drawRoutesAux_length resp startCoords endCoords resp.routes 0⟩

/-- A concrete response used by the counterexamples: one route carrying
one traffic segment that has coordinates. -/
def cexTrafficSegment : TrafficSegment := ⟨0.5, "moderate", 40, [(19, 72)]⟩

def cexRoute : Route :=
  { summary := none
    geometry := none
    ai_analysis := none
    traffic_data := some [cexTrafficSegment] }

def cexResponse : RouteResponse :=
  { routes := [cexRoute]
    traffic_analysis := none
    ai_recommendations := some ⟨0, 0.8, 0, true, "14:30", true⟩ }

def cexCoords : CoordFields := ⟨.num 19, .num 72⟩

/-- C5 counterexample: for this response the route-layer list holds two
overlays (one polyline plus one traffic circle marker) while `routes` has
a single entry, so the number of overlays tracked in the route-layer list
differs from the number of routes. -/
theorem overlay_count_exceeds_routes_cex :
    (drawRoutesOnMap cexCoords cexCoords cexResponse).length ≠
      cexResponse.routes.length := by decide

/-- C4: the polyline drawn for route index `i` uses exactly the style
computed from the recommended flag and the route's traffic level: the
recommended index (the backend-supplied `recommended_route_index`) gets a
solid (no dash array) weight-6 line, and every other route gets a dashed
weight-4 line coloured red above traffic level 0.7, yellow above 0.4 (and
at most 0.7), and blue otherwise. -/
theorem route_line_styling :
    ∀ (startCoords endCoords : CoordFields) (resp : RouteResponse) (i : ℕ)
      (r : Route), resp.routes[i]? = some r →
    (((drawRoutesOnMap startCoords endCoords resp).filter
        MapOverlay.isRouteLine)[i]? =
      some (.routeLine (routeLineStyle (isRecommendedRoute resp i)
        (routeTrafficLevel r)) (routeLinePoints startCoords endCoords r))) ∧
    (isRecommendedRoute resp i = true ↔
      ∃ ar, resp.ai_recommendations = some ar ∧
        ar.recommended_route_index = i) ∧
    (isRecommendedRoute resp i = true →
      (routeLineStyle (isRecommendedRoute resp i)
          (routeTrafficLevel r)).weight = 6 ∧
      (routeLineStyle (isRecommendedRoute resp i)
          (routeTrafficLevel r)).dashArray = none) ∧
    (isRecommendedRoute resp i = false →
      (routeLineStyle (isRecommendedRoute resp i)
          (routeTrafficLevel r)).weight = 4 ∧
      (routeLineStyle (isRecommendedRoute resp i)
          (routeTrafficLevel r)).dashArray = some ("10, 5") ∧
      (routeTrafficLevel r > 0.7 →
        (routeLineStyle (isRecommendedRoute resp i)
            (routeTrafficLevel r)).color = "#ef4444") ∧
      (routeTrafficLevel r ≤ 0.7 → routeTrafficLevel r > 0.4 →
        (routeLineStyle (isRecommendedRoute resp i)
            (routeTrafficLevel r)).color = "#f59e0b") ∧
      (routeTrafficLevel r ≤ 0.4 →
        (routeLineStyle (isRecommendedRoute resp i)
            (routeTrafficLevel r)).color = "#3b82f6")) := by
  intro startCoords endCoords resp i r h
  refine ⟨?_, ?_, ?_, ?_⟩
  · have := drawRoutesAux_line_at resp startCoords endCoords resp.routes 0 i r h
    rw [Nat.zero_add] at this
    exact this
  · unfold isRecommendedRoute
    cases har : resp.ai_recommendations with
    | none => simp
    | some ar => simp [Nat.beq_eq_true_eq]
  · intro hrec
    rw [hrec]
    exact ⟨rfl, rfl⟩
  · intro hrec
    rw [hrec]
    refine ⟨rfl, rfl, ?_, ?_, ?_⟩
    · intro h7
      simp [routeLineStyle, routeColor, h7]
    · intro h7 h4
      have hn7 : ¬routeTrafficLevel r > 0.7 := not_lt.mpr h7
      simp [routeLineStyle, routeColor, hn7, h4]
    · intro h4
      have hn7 : ¬routeTrafficLevel r > 0.7 := by
        rw [not_lt]
        calc (0.7 : ℚ) ≥ 0.4 := by norm_num
          _ ≥ routeTrafficLevel r := h4
      have hn4 : ¬routeTrafficLevel r > 0.4 := not_lt.mpr h4
      simp [routeLineStyle, routeColor, hn7, hn4]

/-- A non-recommended route with high traffic, for the C4 witness. -/
def cexRouteHigh : Route :=
  { summary := none
    geometry := none
    ai_analysis := some ⟨0.2, 0.8, 5, "Heavy traffic", 100⟩
    traffic_data := none }

def cexResponseTwo : RouteResponse :=
  { routes := [cexRoute, cexRouteHigh]
    traffic_analysis := none
    ai_recommendations := some ⟨0, 0.9, 1, true, "14:30", true⟩ }

/-- Witness for C4 at a concrete response: route index 1 is not the
recommended index, so its line is dashed weight-4, and its traffic level
0.8 exceeds 0.7, so the line is red. -/
theorem route_line_styling_witness :
    (routeLineStyle (isRecommendedRoute cexResponseTwo 1)
        (routeTrafficLevel cexRouteHigh)).dashArray = some ("10, 5") ∧
    (routeLineStyle (isRecommendedRoute cexResponseTwo 1)
        (routeTrafficLevel cexRouteHigh)).color = "#ef4444" :=
  ⟨((route_line_styling cexCoords cexCoords cexResponseTwo 1 cexRouteHigh
      rfl).2.2.2 rfl).2.1,
   ((route_line_styling cexCoords cexCoords cexResponseTwo 1 cexRouteHigh
      rfl).2.2.2 rfl).2.2.1 (by norm_num [routeTrafficLevel, cexRouteHigh])⟩

/-! ### Marker synchronisation: `clearMapData` / `addMarkersToMap` -/

/-- A marker pushed into `markersRef` by `addMarkersToMap`. -/
inductive MapMarker
  | startMarker (lat lng : FieldVal)
  | endMarker (lat lng : FieldVal)
  | waypointMarker (index : ℕ) (lat lng : FieldVal)
deriving DecidableEq

/-- The two overlay lists the page tracks (`markersRef` and
`routeLayersRef`). -/
structure MapLayers where
  markers : List MapMarker
  routeLayers : List MapOverlay
deriving DecidableEq

/-- `clearMapData` (lines 112-124): removes every tracked marker and every
tracked route layer from the map and empties both refs. -/
def clearMapData (_layers : MapLayers) : MapLayers := ⟨[], []⟩

/-- The start marker added when both start fields are truthy
(lines 133-150). -/
def startMarkersOf (startCoords : CoordFields) : List MapMarker :=
  if startCoords.latitude.truthy && startCoords.longitude.truthy then
    [.startMarker startCoords.latitude startCoords.longitude]
  else []

/-- The end marker added when both end fields are truthy (lines 153-170). -/
def endMarkersOf (endCoords : CoordFields) : List MapMarker :=
  if endCoords.latitude.truthy && endCoords.longitude.truthy then
    [.endMarker endCoords.latitude endCoords.longitude]
  else []

/-- The waypoint markers (lines 173-196): one per waypoint row whose two
fields are both truthy, labelled with the row index. -/
def waypointMarkersOf (waypoints : List CoordFields) : List MapMarker :=
  waypoints.enum.filterMap (fun p =>
    if p.2.latitude.truthy && p.2.longitude.truthy then
      some (.waypointMarker p.1 p.2.latitude p.2.longitude)
    else none)

/-- `addMarkersToMap` (lines 127-203): calls `clearMapData` (removing all
markers and route layers) and then pushes start, end and waypoint markers
built from the current form state.  Route layers are not redrawn here. -/
def addMarkersToMap (startCoords endCoords : CoordFields)
    (waypoints : List CoordFields) (layers : MapLayers) : MapLayers :=
  { markers := startMarkersOf startCoords ++ endMarkersOf endCoords ++
      waypointMarkersOf waypoints
    routeLayers := (clearMapData layers).routeLayers }

theorem startMarker_not_mem_waypointMarkersOf (waypoints : List CoordFields)
    (lat lng : FieldVal) :
    MapMarker.startMarker lat lng ∉ waypointMarkersOf waypoints := by
  intro h
  rcases List.mem_filterMap.mp h with ⟨p, _, hp⟩
  by_cases hc : (p.2.latitude.truthy && p.2.longitude.truthy) = true
  · rw [if_pos hc] at hp
    cases hp
  · rw [if_neg hc] at hp
    cases hp

theorem endMarker_not_mem_waypointMarkersOf (waypoints : List CoordFields)
    (lat lng : FieldVal) :
    MapMarker.endMarker lat lng ∉ waypointMarkersOf waypoints := by
  intro h
  rcases List.mem_filterMap.mp h with ⟨p, _, hp⟩
  by_cases hc : (p.2.latitude.truthy && p.2.longitude.truthy) = true
  · rw [if_pos hc] at hp
    cases hp
  · rw [if_neg hc] at hp
    cases hp

theorem startMarker_not_mem_endMarkersOf (endCoords : CoordFields)
    (lat lng : FieldVal) :
    MapMarker.startMarker lat lng ∉ endMarkersOf endCoords := by
  intro h
  unfold endMarkersOf at h
  by_cases hc : (endCoords.latitude.truthy && endCoords.longitude.truthy) = true
  · rw [if_pos hc] at h
    rcases List.mem_singleton.mp h with h
    cases h
  · rw [if_neg hc] at h
    cases h

theorem endMarker_not_mem_startMarkersOf (startCoords : CoordFields)
    (lat lng : FieldVal) :
    MapMarker.endMarker lat lng ∉ startMarkersOf startCoords := by
  intro h
  unfold startMarkersOf at h
  by_cases hc : (startCoords.latitude.truthy && startCoords.longitude.truthy) = true
  · rw [if_pos hc] at h
    rcases List.mem_singleton.mp h with h
    cases h
  · rw [if_neg hc] at h
    cases h

/-- C6 counterexample: with route layers on the map (drawn from a result
payload that is still current state), a coordinate-change rebuild leaves
the route-layer list empty, while re-creating it from the current result
payload would yield a non-empty list.  So "all overlays are removed and
re-created from current state" fails for the route layers: they are
removed but not re-created. -/
theorem coordinate_change_drops_route_layers_cex :
    (addMarkersToMap cexCoords cexCoords []
        ⟨[], drawRoutesOnMap cexCoords cexCoords cexResponse⟩).routeLayers
      = [] ∧
    drawRoutesOnMap cexCoords cexCoords cexResponse ≠ [] :=
  ⟨rfl, by decide⟩

/-- C6 (amended): on a start/end/waypoint change the marker effect rebuilds
from the current form state only — its output does not depend on the
previous overlay lists, the route-layer list is left empty (cleared, not
re-created), and a start (resp. end) marker is present exactly when both
corresponding fields are set. -/
theorem marker_effect_full_rebuild :
    ∀ (startCoords endCoords : CoordFields) (waypoints : List CoordFields)
      (layers layers' : MapLayers),
    addMarkersToMap startCoords endCoords waypoints layers =
      addMarkersToMap startCoords endCoords waypoints layers' ∧
    (addMarkersToMap startCoords endCoords waypoints layers).routeLayers = [] ∧
    (MapMarker.startMarker startCoords.latitude startCoords.longitude ∈
        (addMarkersToMap startCoords endCoords waypoints layers).markers ↔
      (startCoords.latitude.truthy && startCoords.longitude.truthy) = true) ∧
    (MapMarker.endMarker endCoords.latitude endCoords.longitude ∈
        (addMarkersToMap startCoords endCoords waypoints layers).markers ↔
      (endCoords.latitude.truthy && endCoords.longitude.truthy) = true) := by
  intro s e w l l'
  refine ⟨rfl, rfl, ?_, ?_⟩
  · constructor
    · intro h
      rcases List.mem_append.mp h with h1 | h2
      · rcases List.mem_append.mp h1 with hs | he
        · unfold startMarkersOf at hs
          by_cases hc : (s.latitude.truthy && s.longitude.truthy) = true
          · exact hc
          · rw [if_neg hc] at hs
            cases hs
        · exact absurd he (startMarker_not_mem_endMarkersOf e _ _)
      · exact absurd h2 (startMarker_not_mem_waypointMarkersOf w _ _)
    · intro hc
      apply List.mem_append.mpr
      left
      apply List.mem_append.mpr
      left
      unfold startMarkersOf
      rw [if_pos hc]
      exact List.mem_singleton.mpr rfl
  · constructor
    · intro h
      rcases List.mem_append.mp h with h1 | h2
      · rcases List.mem_append.mp h1 with hs | he
        · exact absurd hs (endMarker_not_mem_startMarkersOf s _ _)
        · unfold endMarkersOf at he
          by_cases hc : (e.latitude.truthy && e.longitude.truthy) = true
          · exact hc
          · rw [if_neg hc] at he
            cases he
      · exact absurd h2 (endMarker_not_mem_waypointMarkersOf w _ _)
    · intro hc
      apply List.mem_append.mpr
      left
      apply List.mem_append.mpr
      right
      unfold endMarkersOf
      rw [if_pos hc]
      exact List.mem_singleton.mpr rfl

/-- Witness for C6 (amended) at a concrete state: with both start fields
set, the rebuilt marker list contains the start marker. -/
theorem marker_effect_full_rebuild_witness :
    MapMarker.startMarker (.num 19) (.num 72) ∈
      (addMarkersToMap cexCoords ⟨.empty, .empty⟩ [] ⟨[], []⟩).markers :=
  ((marker_effect_full_rebuild cexCoords ⟨.empty, .empty⟩ [] ⟨[], []⟩
      ⟨[], []⟩).2.2.1).mpr (by decide)

/-! ### Authentication contexts and the API client -/

/-- An outgoing HTTP request, reduced to the parts the claims speak about:
its URL and its `Authorization` header (if any). -/
structure HttpRequest where
  url : String
  authorization : Option String
deriving DecidableEq

/-- The axios request interceptor of `src/frontend/src/api/api.js`
(lines 13-24): reads local storage key `token`; a truthy value (any
non-empty string) is attached as `Authorization: Bearer <token>`. -/
def interceptRequest (storageToken : Option String) (url : String) :
    HttpRequest :=
  match storageToken with
  | some t => if t = "" then ⟨url, none⟩ else ⟨url, some ("Bearer " ++ t)⟩
  | none => ⟨url, none⟩

namespace FetchAuth

/-- State of the fetch-based auth context in `src/unnamed/part_000`:
the local-storage token, and the in-memory `token`, `user`, `loading`.
The user object is kept as its raw JSON text. -/
structure State where
  storageToken : Option String
  token : Option String
  user : Option String
  loading : Bool
deriving DecidableEq

/-- Backend answer to `GET /auth/verify`: `response.ok` with a user object,
a non-ok response, or a network error (the `catch` branch). -/
inductive VerifyOutcome
  | ok (userData : String)
  | rejected (status : ℕ)
  | networkError
deriving DecidableEq

def VerifyOutcome.isOk : VerifyOutcome → Bool
  | .ok _ => true
  | _ => false

/-- `verifyToken` (part_000 lines 31-61): issues `GET /auth/verify` with
`Authorization: Bearer <token>`; on `response.ok` stores the user, else
(non-ok or error) removes the token from local storage and nulls the
in-memory token; `loading` always ends `false`. -/
def verifyToken (s : State) (t : String) (outcome : VerifyOutcome) :
    State × List HttpRequest :=
  let req : HttpRequest :=
    ⟨"http://localhost:8000/auth/verify", some ("Bearer " ++ t)⟩
  match outcome with
  | .ok u => ({ s with user := some u, loading := false }, [req])
  | .rejected _ =>
      ({ s with storageToken := none, token := none, loading := false }, [req])
  | .networkError =>
      ({ s with storageToken := none, token := none, loading := false }, [req])

/-- Session restore on load (part_000 lines 13-29): the token state is
initialised from local storage, and the mount effect runs `verifyToken`
when a token is present, else only clears `loading`.  Returns the
resulting state and the requests issued during the load. -/
def load (storageToken : Option String) (outcome : VerifyOutcome) :
    State × List HttpRequest :=
  let s0 : State := ⟨storageToken, storageToken, none, true⟩
  match storageToken with
  | some t => verifyToken s0 t outcome
  | none => ({ s0 with loading := false }, [])

/-- `logout` (part_000 lines 115-119). -/
def logout (s : State) : State :=
  { s with storageToken := none, token := none, user := none }

end FetchAuth

namespace AxiosAuth

/-- State of the axios-based auth context in
`src/frontend/src/context/AuthContext.jsx`: local-storage `token` and
`user`, in-memory `token` and `user`, the shared client's default
`Authorization` header, and `loading`. -/
structure State where
  storageToken : Option String
  storageUser : Option String
  token : Option String
  user : Option String
  defaultsAuthorization : Option String
  loading : Bool
deriving DecidableEq

/-- Session restore on load (AuthContext.jsx lines 18-36): a stored token
is copied into state and into the client's default `Authorization` header,
the stored user JSON is parsed into state, and `loading` is cleared.  No
request is issued and nothing is verified.  (A `JSON.parse` failure only
leaves `user` unset; parsing is modelled as the identity on the stored
text.) -/
def load (storageToken storageUser : Option String) :
    State × List HttpRequest :=
  match storageToken with
  | some t =>
      ({ storageToken := some t
         storageUser := storageUser
         token := some t
         user := storageUser
         defaultsAuthorization := some ("Bearer " ++ t)
         loading := false }, [])
  | none =>
      ({ storageToken := none
         storageUser := storageUser
         token := none
         user := none
         defaultsAuthorization := none
         loading := false }, [])

/-- `logout` (AuthContext.jsx lines 76-82): clears both storage keys, the
in-memory session, and deletes the client's default header. -/
def logout (s : State) : State :=
  { s with
    storageToken := none
    storageUser := none
    token := none
    user := none
    defaultsAuthorization := none }

/-- A request sent through the context's shared axios client: it carries
whatever default `Authorization` header is currently set. -/
def clientRequest (s : State) (url : String) : HttpRequest :=
  ⟨url, s.defaultsAuthorization⟩

end AxiosAuth

/-- C1 counterexample: in the axios auth context (AuthContext.jsx), a
session restored on load from a stored token issues no request at all —
in particular no `GET /auth/verify` — and the token is kept unconditionally,
so a token the backend would reject is not cleared.  This refutes "for
every session restored on application load ... the client attempts
verification of that token". -/
theorem axios_restore_skips_verification_cex :
    (AxiosAuth.load (some "tok") (some "u")).2 = [] ∧
    (AxiosAuth.load (some "tok") (some "u")).1.token = some "tok" ∧
    (AxiosAuth.load (some "tok") (some "u")).1.storageToken = some "tok" :=
  ⟨rfl, rfl, rfl⟩

/-- C1 (amended): in the fetch-based auth context (part_000), restoring a
session from a stored token always issues `GET /auth/verify` with the
bearer token, and when the backend rejects the token or the request fails
the session is silently cleared: the stored token is removed and the
in-memory token and user are both `none`.  The axios-based context restores
without verification (see the counterexample). -/
theorem fetch_restore_verifies_and_clears_on_failure
    (t : String) (outcome : FetchAuth.VerifyOutcome)
    (hfail : outcome.isOk = false) :
    (FetchAuth.load (some t) outcome).2 =
      [⟨"http://localhost:8000/auth/verify", some ("Bearer " ++ t)⟩] ∧
    (FetchAuth.load (some t) outcome).1.storageToken = none ∧
    (FetchAuth.load (some t) outcome).1.token = none ∧
    (FetchAuth.load (some t) outcome).1.user = none ∧
    (FetchAuth.load (some t) outcome).1.loading = false := by
  cases outcome with
  | ok u => simp [FetchAuth.VerifyOutcome.isOk] at hfail
  | rejected status => exact ⟨rfl, rfl, rfl, rfl, rfl⟩
  | networkError => exact ⟨rfl, rfl, rfl, rfl, rfl⟩

/-- Witness for C1 (amended): restoring token `"tok"` against a rejecting
backend issues the verify request and clears the session. -/
theorem fetch_restore_verifies_witness :
    (FetchAuth.VerifyOutcome.rejected 401).isOk = false ∧
    (FetchAuth.load (some "tok") (.rejected 401)).1.token = none ∧
    (FetchAuth.load (some "tok") (.rejected 401)).1.storageToken = none :=
  ⟨rfl,
   (fetch_restore_verifies_and_clears_on_failure "tok" (.rejected 401)
      rfl).2.2.1,
   (fetch_restore_verifies_and_clears_on_failure "tok" (.rejected 401)
      rfl).2.1⟩

/-- C7: after either context's `logout`, no subsequently issued request
carries an `Authorization` header: the local-storage-reading interceptor of
the API client finds no token, and the axios context's shared client has no
default header left; the in-memory tokens are cleared too. -/
theorem logout_clears_authorization_headers :
    ∀ (sf : FetchAuth.State) (sa : AxiosAuth.State) (url : String),
    (interceptRequest (FetchAuth.logout sf).storageToken url).authorization
      = none ∧
    (interceptRequest (AxiosAuth.logout sa).storageToken url).authorization
      = none ∧
    (AxiosAuth.clientRequest (AxiosAuth.logout sa) url).authorization = none ∧
    (FetchAuth.logout sf).token = none ∧
    (AxiosAuth.logout sa).token = none := by
  intro sf sa url
  exact ⟨rfl, rfl, rfl, rfl, rfl⟩

/-- C8: a request through the API client carries
`Authorization: Bearer <token>` exactly when a token is stored under the
local-storage key `token` (the interceptor's truthiness test treats the
degenerate empty string as absent), and carries no header when no token is
stored. -/
theorem interceptor_bearer_header (url : String) :
    (∀ t : String, t ≠ "" →
      (interceptRequest (some t) url).authorization = some ("Bearer " ++ t)) ∧
    (interceptRequest none url).authorization = none := by
  constructor
  · intro t ht
    simp [interceptRequest, ht]
  · rfl

/-- Witness for C8: stored token `"abc123"` yields the bearer header. -/
theorem interceptor_bearer_header_witness :
    (interceptRequest (some "abc123") "/places").authorization =
      some ("Bearer " ++ "abc123") :=
  (interceptor_bearer_header "/places").1 "abc123" (by decide)

/-! ### The map click handler -/

/-- The form state touched by `handleMapClick`. -/
structure ClickFormState where
  startCoords : CoordFields
  endCoords : CoordFields
  waypoints : List CoordFields
deriving DecidableEq

/-- `Number.prototype.toFixed(6)`: round to six decimal places. -/
def toFixed6 (q : ℚ) : ℚ := ((round (q * 1000000) : ℤ) : ℚ) / 1000000

/-- `handleMapClick` (AIRouteOptimizer.jsx lines 388-411): if the start
latitude field is falsy the click fills the start coordinate with the
clicked position rendered via `toFixed(6)`; else if the end latitude field
is falsy it fills the end coordinate; otherwise the click changes nothing. -/
def handleMapClick (s : ClickFormState) (lat lng : ℚ) : ClickFormState :=
  if !s.startCoords.latitude.truthy then
    { s with startCoords := ⟨.num (toFixed6 lat), .num (toFixed6 lng)⟩ }
  else if !s.endCoords.latitude.truthy then
    { s with endCoords := ⟨.num (toFixed6 lat), .num (toFixed6 lng)⟩ }
  else s

/-- C9: a map click fills the start coordinate (rounded to six decimals)
when the start latitude is unset, else fills the end coordinate when the
end latitude is unset, else changes nothing; it never overwrites a start or
end coordinate whose latitude is set, and never touches the waypoints. -/
theorem map_click_sets_start_then_end :
    ∀ (s : ClickFormState) (lat lng : ℚ),
    (s.startCoords.latitude.truthy = false →
      (handleMapClick s lat lng).startCoords =
        ⟨.num (toFixed6 lat), .num (toFixed6 lng)⟩ ∧
      (handleMapClick s lat lng).endCoords = s.endCoords) ∧
    (s.startCoords.latitude.truthy = true →
     s.endCoords.latitude.truthy = false →
      (handleMapClick s lat lng).endCoords =
        ⟨.num (toFixed6 lat), .num (toFixed6 lng)⟩ ∧
      (handleMapClick s lat lng).startCoords = s.startCoords) ∧
    (s.startCoords.latitude.truthy = true →
     s.endCoords.latitude.truthy = true →
      handleMapClick s lat lng = s) ∧
    (s.startCoords.latitude.truthy = true →
      (handleMapClick s lat lng).startCoords = s.startCoords) ∧
    (s.endCoords.latitude.truthy = true →
      (handleMapClick s lat lng).endCoords = s.endCoords) ∧
    (handleMapClick s lat lng).waypoints = s.waypoints := by
  intro s lat lng
  by_cases hs : s.startCoords.latitude.truthy = true
  · by_cases he : s.endCoords.latitude.truthy = true
    · have hmc : handleMapClick s lat lng = s := by
        simp [handleMapClick, hs, he]
      refine ⟨?_, ?_, ?_, ?_, ?_, ?_⟩
      · intro h; rw [hs] at h; cases h
      · intro _ h; rw [he] at h; cases h
      · intro _ _; exact hmc
      · intro _; rw [hmc]
      · intro _; rw [hmc]
      · rw [hmc]
    · have hmc : handleMapClick s lat lng =
          { s with endCoords := ⟨.num (toFixed6 lat), .num (toFixed6 lng)⟩ } := by
        simp [handleMapClick, hs, he]
      refine ⟨?_, ?_, ?_, ?_, ?_, ?_⟩
      · intro h; rw [hs] at h; cases h
      · intro _ _; rw [hmc]; exact ⟨rfl, rfl⟩
      · intro _ h; exact absurd h he
      · intro _; rw [hmc]
      · intro h; exact absurd h he
      · rw [hmc]
  · have hmc : handleMapClick s lat lng =
        { s with startCoords := ⟨.num (toFixed6 lat), .num (toFixed6 lng)⟩ } := by
      simp [handleMapClick, hs]
    refine ⟨?_, ?_, ?_, ?_, ?_, ?_⟩
    · intro _; rw [hmc]; exact ⟨rfl, rfl⟩
    · intro h; exact absurd h hs
    · intro h; exact absurd h hs
    · intro h; exact absurd h hs
    · intro _; rw [hmc]
    · rw [hmc]

/-- Witness for C9 at a concrete state: with the start latitude unset, a
click at `(1, 2)` fills the start coordinate and leaves the end coordinate
and the waypoints unchanged. -/
theorem map_click_sets_start_witness :
    (handleMapClick ⟨⟨.empty, .empty⟩, ⟨.num 18, .num 73⟩, []⟩ 1 2).startCoords
      = ⟨.num (toFixed6 1), .num (toFixed6 2)⟩ ∧
    (handleMapClick ⟨⟨.empty, .empty⟩, ⟨.num 18, .num 73⟩, []⟩ 1 2).endCoords
      = ⟨.num 18, .num 73⟩ :=
  (map_click_sets_start_then_end ⟨⟨.empty, .empty⟩, ⟨.num 18, .num 73⟩, []⟩
    1 2).1 rfl

end AiRouteOptimizer
